import Mathlib

/-!
Verification of the RadPatterns library (src/radpatterns.py).

The library builds 3x3 seismic moment tensors from fault parameters and
evaluates far-field P/SH/SV radiation coefficients in a given direction.
All angles enter in degrees and are converted to radians internally.
Tensors are modelled as `Matrix (Fin 3) (Fin 3) ℝ`, vectors as `Fin 3 → ℝ`,
and the Python string selectors (`slip_type`, `coordinates`) as `String`.
-/

open Matrix

noncomputable section

/-- Degree-to-radian conversion, `x*np.pi/180` in the source. -/
def deg2rad (x : ℝ) : ℝ := x * Real.pi / 180

/-- `fault_projected_moment_tensor(slip_type, rake, poissons_ratio)`:
builds the fault-local moment tensor.  The array starts as zeros; the
`shear` branch sets the symmetric (1,2) and (0,2) off-diagonal pairs, the
`explosion` branch an isotropic diagonal, the `opening` branch a diagonal
from the Lame-to-shear-modulus ratio; any other `slip_type` leaves zeros. -/
def fault_projected_moment_tensor (slip_type : String) (rake : ℝ)
    (poissons_ratio : ℝ) : Matrix (Fin 3) (Fin 3) ℝ :=
  let lambda2shmod : ℝ := 2 * poissons_ratio / (1 - 2 * poissons_ratio)
  if slip_type = "shear" then
    !![0, 0, -Real.sin (deg2rad rake);
       0, 0, Real.cos (deg2rad rake);
       -Real.sin (deg2rad rake), Real.cos (deg2rad rake), 0]
  else if slip_type = "explosion" then
    !![Real.sqrt (2/3), 0, 0;
       0, Real.sqrt (2/3), 0;
       0, 0, Real.sqrt (2/3)]
  else if slip_type = "opening" then
    !![lambda2shmod, 0, 0;
       0, lambda2shmod, 0;
       0, 0, lambda2shmod + 2]
  else 0

/-- The dip rotation matrix built inside `create_moment_tensor`:
`R[1,1]=1, R[0,0]=cos d, R[2,0]=-sin d, R[0,2]=sin d, R[2,2]=cos d`. -/
def dip_rotation (d : ℝ) : Matrix (Fin 3) (Fin 3) ℝ :=
  !![Real.cos d, 0, Real.sin d;
     0, 1, 0;
     -Real.sin d, 0, Real.cos d]

/-- The strike rotation matrix built inside `create_moment_tensor`:
`R[2,2]=1, R[0,0]=cos s, R[0,1]=sin s, R[1,1]=cos s, R[1,0]=-sin s`. -/
def strike_rotation (s : ℝ) : Matrix (Fin 3) (Fin 3) ℝ :=
  !![Real.cos s, Real.sin s, 0;
     -Real.sin s, Real.cos s, 0;
     0, 0, 1]

/-- `create_moment_tensor(strike, dip, rake, opening_angle, coordinates,
poissons_ratio)`: blends a shear and an opening fault-local tensor by
cos/sin of the opening angle, then, when `coordinates` is one of the
geographic spellings, applies the dip rotation and the strike rotation as
similarity transforms (`np.tensordot(R, np.tensordot(M, R.T, ...), ...)`
is `R * M * Rᵀ`).  Note the source calls the opening builder as
`fault_projected_moment_tensor(slip_type='opening')`, i.e. with the
default `rake=0` and the default `poissons_ratio=0.25`, not with the
caller's `poissons_ratio`. -/
def create_moment_tensor (strike dip rake opening_angle : ℝ)
    (coordinates : String) (poissons_ratio : ℝ) : Matrix (Fin 3) (Fin 3) ℝ :=
  let Mshear := fault_projected_moment_tensor "shear" rake 0.25
  let Mopen := fault_projected_moment_tensor "opening" 0 0.25
  let fraction_shear := Real.cos (deg2rad opening_angle)
  let fraction_opening := Real.sin (deg2rad opening_angle)
  let M := fraction_shear • Mshear + fraction_opening • Mopen
  if coordinates = "xyz" ∨ coordinates = "XYZ" ∨ coordinates = "ENZ" ∨
      coordinates = "enz" then
    let Rd := dip_rotation (deg2rad dip)
    let M1 := Rd * M * Rd.transpose
    let Rs := strike_rotation (deg2rad strike)
    Rs * M1 * Rs.transpose
  else
    M

/-- `calc_unit_vectors(takeoff_angle, azimuth)`: the spherical basis
vectors in the East-North-Up frame.  The source assigns `theta_vec` and
`phi_vec` twice in a row; the first assignment of each is dead code and
is reproduced here as a shadowed binding, exactly as in the source. -/
def calc_unit_vectors (takeoff_angle azimuth : ℝ) :
    (Fin 3 → ℝ) × (Fin 3 → ℝ) × (Fin 3 → ℝ) :=
  let theta := deg2rad takeoff_angle
  let phi := deg2rad azimuth
  let R_vec : Fin 3 → ℝ :=
    ![Real.sin theta * Real.sin phi,
      Real.sin theta * Real.cos phi,
      -Real.cos theta]
  let theta_vec : Fin 3 → ℝ :=
    ![Real.cos theta * Real.cos phi,
      Real.cos theta * Real.sin phi,
      -Real.sin theta]
  let theta_vec : Fin 3 → ℝ :=
    ![Real.cos theta * Real.sin phi,
      Real.cos theta * Real.cos phi,
      Real.sin theta]
  let phi_vec : Fin 3 → ℝ :=
    ![-Real.sin phi,
      Real.cos phi,
      0]
  let phi_vec : Fin 3 → ℝ :=
    ![Real.cos phi,
      -Real.sin phi,
      0]
  (R_vec, theta_vec, phi_vec)

/-- `calc_radiation_pattern(M, takeoff_angle, azimuth)`: contracts the
moment tensor with the directional basis, returning `(rd_p, rd_sh, rd_sv)`
with `rd_sh = phi_vec . (M R_vec)`, `rd_sv = theta_vec . (M R_vec)`,
`rd_p = R_vec . (M R_vec)`. -/
def calc_radiation_pattern (M : Matrix (Fin 3) (Fin 3) ℝ)
    (takeoff_angle azimuth : ℝ) : ℝ × ℝ × ℝ :=
  let v := calc_unit_vectors takeoff_angle azimuth
  let R_vec := v.1
  let theta_vec := v.2.1
  let phi_vec := v.2.2
  let rd_sh := dotProduct phi_vec (M.mulVec R_vec)
  let rd_sv := dotProduct theta_vec (M.mulVec R_vec)
  let rd_p := dotProduct R_vec (M.mulVec R_vec)
  (rd_p, rd_sh, rd_sv)

end

/-- C2: for every takeoff angle and azimuth, `calc_unit_vectors` returns
exactly `R_vec = (sin θ sin φ, sin θ cos φ, -cos θ)`,
`theta_vec = (cos θ sin φ, cos θ cos φ, sin θ)` and
`phi_vec = (cos φ, -sin φ, 0)` in that order, where θ and φ are the
takeoff angle and azimuth converted to radians; the first (shadowed)
assignments to `theta_vec` and `phi_vec` do not affect the result. -/
theorem calc_unit_vectors_formulas (takeoff_angle azimuth : ℝ) :
    calc_unit_vectors takeoff_angle azimuth =
      (![Real.sin (deg2rad takeoff_angle) * Real.sin (deg2rad azimuth),
         Real.sin (deg2rad takeoff_angle) * Real.cos (deg2rad azimuth),
         -Real.cos (deg2rad takeoff_angle)],
       ![Real.cos (deg2rad takeoff_angle) * Real.sin (deg2rad azimuth),
         Real.cos (deg2rad takeoff_angle) * Real.cos (deg2rad azimuth),
         Real.sin (deg2rad takeoff_angle)],
       ![Real.cos (deg2rad azimuth),
         -Real.sin (deg2rad azimuth),
         0]) :=
  rfl

/-- C3: `calc_radiation_pattern M t a` is the triple `(P, SH, SV)` with
`P = R_vec . (M R_vec)`, `SH = phi_vec . (M R_vec)`,
`SV = theta_vec . (M R_vec)`, the vectors being those produced by
`calc_unit_vectors t a`. -/
theorem calc_radiation_pattern_projections (M : Matrix (Fin 3) (Fin 3) ℝ)
    (takeoff_angle azimuth : ℝ) :
    calc_radiation_pattern M takeoff_angle azimuth =
      (dotProduct (calc_unit_vectors takeoff_angle azimuth).1
         (M.mulVec (calc_unit_vectors takeoff_angle azimuth).1),
       dotProduct (calc_unit_vectors takeoff_angle azimuth).2.2
         (M.mulVec (calc_unit_vectors takeoff_angle azimuth).1),
       dotProduct (calc_unit_vectors takeoff_angle azimuth).2.1
         (M.mulVec (calc_unit_vectors takeoff_angle azimuth).1)) :=
  rfl

/-- C4: the three recognized slip types produce exactly the claimed
tensors: `shear` has the symmetric off-diagonal pairs
`M[0,2] = M[2,0] = -sin rake` and `M[1,2] = M[2,1] = cos rake` (rake in
radians) and every other entry zero; `opening` is the diagonal
`(l, l, l+2)` with `l = 2ν/(1-2ν)`; `explosion` is the diagonal with each
entry `sqrt (2/3)`. -/
theorem fault_projected_moment_tensor_cases (rake poissons_ratio : ℝ) :
    fault_projected_moment_tensor "shear" rake poissons_ratio =
      !![0, 0, -Real.sin (deg2rad rake);
         0, 0, Real.cos (deg2rad rake);
         -Real.sin (deg2rad rake), Real.cos (deg2rad rake), 0] ∧
    fault_projected_moment_tensor "opening" rake poissons_ratio =
      !![2 * poissons_ratio / (1 - 2 * poissons_ratio), 0, 0;
         0, 2 * poissons_ratio / (1 - 2 * poissons_ratio), 0;
         0, 0, 2 * poissons_ratio / (1 - 2 * poissons_ratio) + 2] ∧
    fault_projected_moment_tensor "explosion" rake poissons_ratio =
      !![Real.sqrt (2/3), 0, 0;
         0, Real.sqrt (2/3), 0;
         0, 0, Real.sqrt (2/3)] :=
  ⟨rfl, rfl, rfl⟩

/-- C7: `calc_radiation_pattern` is bilinear in its tensor argument, and
the zero tensor yields exactly `(0, 0, 0)` for every direction. -/
theorem calc_radiation_pattern_bilinear (a b : ℝ)
    (M1 M2 : Matrix (Fin 3) (Fin 3) ℝ) (takeoff_angle azimuth : ℝ) :
    calc_radiation_pattern (a • M1 + b • M2) takeoff_angle azimuth =
      (a * (calc_radiation_pattern M1 takeoff_angle azimuth).1 +
         b * (calc_radiation_pattern M2 takeoff_angle azimuth).1,
       a * (calc_radiation_pattern M1 takeoff_angle azimuth).2.1 +
         b * (calc_radiation_pattern M2 takeoff_angle azimuth).2.1,
       a * (calc_radiation_pattern M1 takeoff_angle azimuth).2.2 +
         b * (calc_radiation_pattern M2 takeoff_angle azimuth).2.2) ∧
    calc_radiation_pattern (0 : Matrix (Fin 3) (Fin 3) ℝ)
        takeoff_angle azimuth = (0, 0, 0) := by
  constructor
  · unfold calc_radiation_pattern
    simp only [Prod.mk.injEq]
    refine ⟨?_, ?_, ?_⟩ <;>
      simp [dotProduct, mulVec, Fin.sum_univ_three, Matrix.add_apply,
        Matrix.smul_apply, smul_eq_mul] <;> ring
  · unfold calc_radiation_pattern
    simp [dotProduct, mulVec, Fin.sum_univ_three]

/-- Helper: the fault-local tensor is invariant under transposition for
every `slip_type` (each branch produces a symmetric literal; the fallback
is the zero matrix). -/
lemma fptm_transpose (slip_type : String) (rake poissons_ratio : ℝ) :
    (fault_projected_moment_tensor slip_type rake poissons_ratio)ᵀ =
      fault_projected_moment_tensor slip_type rake poissons_ratio := by
  simp only [fault_projected_moment_tensor]
  split_ifs <;> ext i j <;> fin_cases i <;> fin_cases j <;>
    simp [Matrix.transpose_apply, Matrix.vecHead, Matrix.vecTail]

/-- Helper: a similarity transform `R * M * Rᵀ` of a transpose-invariant
matrix is transpose-invariant. -/
lemma conj_transpose_symm {R M : Matrix (Fin 3) (Fin 3) ℝ} (h : Mᵀ = M) :
    (R * M * Rᵀ)ᵀ = R * M * Rᵀ := by
  rw [Matrix.transpose_mul, Matrix.transpose_mul, Matrix.transpose_transpose,
    h, Matrix.mul_assoc]

/-- Helper: the cos/sin blend of the shear and opening tensors inside
`create_moment_tensor` is transpose-invariant. -/
lemma blend_transpose (rake opening_angle : ℝ) :
    (Real.cos (deg2rad opening_angle) •
        fault_projected_moment_tensor "shear" rake 0.25 +
      Real.sin (deg2rad opening_angle) •
        fault_projected_moment_tensor "opening" 0 0.25)ᵀ =
      Real.cos (deg2rad opening_angle) •
        fault_projected_moment_tensor "shear" rake 0.25 +
      Real.sin (deg2rad opening_angle) •
        fault_projected_moment_tensor "opening" 0 0.25 := by
  rw [Matrix.transpose_add, Matrix.transpose_smul, Matrix.transpose_smul,
    fptm_transpose, fptm_transpose]

/-- Helper: with an unrecognized `coordinates` value, `create_moment_tensor`
returns the blended fault-local tensor with no rotation. -/
lemma create_fallback_aux (strike dip rake opening_angle : ℝ)
    (coordinates : String) (poissons_ratio : ℝ)
    (h : ¬(coordinates = "xyz" ∨ coordinates = "XYZ" ∨ coordinates = "ENZ" ∨
      coordinates = "enz")) :
    create_moment_tensor strike dip rake opening_angle coordinates
        poissons_ratio =
      Real.cos (deg2rad opening_angle) •
          fault_projected_moment_tensor "shear" rake 0.25 +
        Real.sin (deg2rad opening_angle) •
          fault_projected_moment_tensor "opening" 0 0.25 := by
  simp only [create_moment_tensor]
  rw [if_neg h]

/-- Helper: with a recognized geographic `coordinates` value,
`create_moment_tensor` returns the doubly rotated blended tensor. -/
lemma create_geographic_aux (strike dip rake opening_angle : ℝ)
    (coordinates : String) (poissons_ratio : ℝ)
    (h : coordinates = "xyz" ∨ coordinates = "XYZ" ∨ coordinates = "ENZ" ∨
      coordinates = "enz") :
    create_moment_tensor strike dip rake opening_angle coordinates
        poissons_ratio =
      strike_rotation (deg2rad strike) *
        (dip_rotation (deg2rad dip) *
          (Real.cos (deg2rad opening_angle) •
              fault_projected_moment_tensor "shear" rake 0.25 +
            Real.sin (deg2rad opening_angle) •
              fault_projected_moment_tensor "opening" 0 0.25) *
          (dip_rotation (deg2rad dip))ᵀ) *
        (strike_rotation (deg2rad strike))ᵀ := by
  simp only [create_moment_tensor]
  rw [if_pos h]

/-- Helper: `create_moment_tensor` output is transpose-invariant for every
`coordinates` value. -/
lemma create_transpose_aux (strike dip rake opening_angle : ℝ)
    (coordinates : String) (poissons_ratio : ℝ) :
    (create_moment_tensor strike dip rake opening_angle coordinates
        poissons_ratio)ᵀ =
      create_moment_tensor strike dip rake opening_angle coordinates
        poissons_ratio := by
  by_cases h : coordinates = "xyz" ∨ coordinates = "XYZ" ∨
      coordinates = "ENZ" ∨ coordinates = "enz"
  · rw [create_geographic_aux strike dip rake opening_angle coordinates
      poissons_ratio h]
    exact conj_transpose_symm (conj_transpose_symm
      (blend_transpose rake opening_angle))
  · rw [create_fallback_aux strike dip rake opening_angle coordinates
      poissons_ratio h]
    exact blend_transpose rake opening_angle

/-- C5: the three vectors returned by `calc_unit_vectors` each have unit
Euclidean norm and are pairwise orthogonal, for every takeoff angle and
azimuth. -/
theorem calc_unit_vectors_orthonormal (takeoff_angle azimuth : ℝ) :
    (Real.sqrt (dotProduct (calc_unit_vectors takeoff_angle azimuth).1
        (calc_unit_vectors takeoff_angle azimuth).1) = 1 ∧
      Real.sqrt (dotProduct (calc_unit_vectors takeoff_angle azimuth).2.1
        (calc_unit_vectors takeoff_angle azimuth).2.1) = 1 ∧
      Real.sqrt (dotProduct (calc_unit_vectors takeoff_angle azimuth).2.2
        (calc_unit_vectors takeoff_angle azimuth).2.2) = 1) ∧
    dotProduct (calc_unit_vectors takeoff_angle azimuth).1
        (calc_unit_vectors takeoff_angle azimuth).2.1 = 0 ∧
    dotProduct (calc_unit_vectors takeoff_angle azimuth).1
        (calc_unit_vectors takeoff_angle azimuth).2.2 = 0 ∧
    dotProduct (calc_unit_vectors takeoff_angle azimuth).2.1
        (calc_unit_vectors takeoff_angle azimuth).2.2 = 0 := by
  have st := Real.sin_sq_add_cos_sq (deg2rad takeoff_angle)
  have sa := Real.sin_sq_add_cos_sq (deg2rad azimuth)
  have hR : dotProduct (calc_unit_vectors takeoff_angle azimuth).1
      (calc_unit_vectors takeoff_angle azimuth).1 = 1 := by
    simp [calc_unit_vectors, dotProduct, Fin.sum_univ_three]
    nlinarith [st, sa]
  have hT : dotProduct (calc_unit_vectors takeoff_angle azimuth).2.1
      (calc_unit_vectors takeoff_angle azimuth).2.1 = 1 := by
    simp [calc_unit_vectors, dotProduct, Fin.sum_univ_three]
    nlinarith [st, sa]
  have hP : dotProduct (calc_unit_vectors takeoff_angle azimuth).2.2
      (calc_unit_vectors takeoff_angle azimuth).2.2 = 1 := by
    simp [calc_unit_vectors, dotProduct, Fin.sum_univ_three]
    nlinarith [st, sa]
  refine ⟨⟨?_, ?_, ?_⟩, ?_, ?_, ?_⟩
  · rw [hR]; exact Real.sqrt_one
  · rw [hT]; exact Real.sqrt_one
  · rw [hP]; exact Real.sqrt_one
  · simp [calc_unit_vectors, dotProduct, Fin.sum_univ_three]
    linear_combination
      (Real.sin (deg2rad takeoff_angle) * Real.cos (deg2rad takeoff_angle)) * sa
  · simp [calc_unit_vectors, dotProduct, Fin.sum_univ_three]
    ring
  · simp [calc_unit_vectors, dotProduct, Fin.sum_univ_three]
    ring

/-- C6: `fault_projected_moment_tensor` is symmetric for every
`slip_type`, `rake` and `poissons_ratio`, and `create_moment_tensor` is
symmetric for every `strike`, `dip`, `rake`, `opening_angle`,
`coordinates` and `poissons_ratio`, i.e. in both the fault-local and the
geographic frames: `M i j = M j i` for all indices. -/
theorem moment_tensors_symmetric (slip_type coordinates : String)
    (rake poissons_ratio strike dip opening_angle : ℝ) (i j : Fin 3) :
    fault_projected_moment_tensor slip_type rake poissons_ratio i j =
      fault_projected_moment_tensor slip_type rake poissons_ratio j i ∧
    create_moment_tensor strike dip rake opening_angle coordinates
        poissons_ratio i j =
      create_moment_tensor strike dip rake opening_angle coordinates
        poissons_ratio j i := by
  constructor
  · conv_rhs => rw [← fptm_transpose slip_type rake poissons_ratio]
    exact (Matrix.transpose_apply _ j i).symm
  · conv_rhs => rw [← create_transpose_aux strike dip rake opening_angle
      coordinates poissons_ratio]
    exact (Matrix.transpose_apply _ j i).symm

/-- C1 (code bug): `create_moment_tensor` does not forward the caller's
`poissons_ratio` to the opening-tensor builder — it calls the builder with
the default 0.25.  At opening_angle = 90 and fault-local output, the
result with `poissons_ratio = 0.4` is identical to the result with 0.25,
and its (0,0) entry is 1 (the default ratio's `2*0.25/(1-2*0.25)`) rather
than the claimed `2*0.4/(1-2*0.4) = 4`. -/
theorem create_moment_tensor_ignores_poissons_ratio :
    create_moment_tensor 0 20 90 90 "fault" 0.4 =
      create_moment_tensor 0 20 90 90 "fault" 0.25 ∧
    create_moment_tensor 0 20 90 90 "fault" 0.4 0 0 = 1 ∧
    2 * (0.4 : ℝ) / (1 - 2 * 0.4) = 4 := by
  refine ⟨rfl, ?_, by norm_num⟩
  rw [create_fallback_aux 0 20 90 90 "fault" 0.4 (by decide)]
  have h90 : deg2rad 90 = Real.pi / 2 := by unfold deg2rad; ring
  simp [fault_projected_moment_tensor, h90, Real.cos_pi_div_two,
    Real.sin_pi_div_two]
  norm_num

/-- C8: an unrecognized `slip_type` makes `fault_projected_moment_tensor`
return the all-zero tensor, and an unrecognized `coordinates` value makes
`create_moment_tensor` return the blended fault-local tensor with no
rotation applied. -/
theorem unrecognized_inputs_fall_back (slip_type coordinates : String)
    (strike dip rake opening_angle rake2 poissons_ratio : ℝ)
    (h1 : slip_type ≠ "shear") (h2 : slip_type ≠ "opening")
    (h3 : slip_type ≠ "explosion")
    (h4 : coordinates ≠ "xyz") (h5 : coordinates ≠ "XYZ")
    (h6 : coordinates ≠ "ENZ") (h7 : coordinates ≠ "enz") :
    fault_projected_moment_tensor slip_type rake2 poissons_ratio = 0 ∧
    create_moment_tensor strike dip rake opening_angle coordinates
        poissons_ratio =
      Real.cos (deg2rad opening_angle) •
          fault_projected_moment_tensor "shear" rake 0.25 +
        Real.sin (deg2rad opening_angle) •
          fault_projected_moment_tensor "opening" 0 0.25 := by
  constructor
  · simp only [fault_projected_moment_tensor]
    rw [if_neg h1, if_neg h3, if_neg h2]
  · exact create_fallback_aux strike dip rake opening_angle coordinates
      poissons_ratio (by simp [h4, h5, h6, h7])

/-- Witness for C8 at `slip_type = "tensile"` and
`coordinates = "fault"`. -/
theorem unrecognized_inputs_fall_back_witness :
    fault_projected_moment_tensor "tensile" 10 0.3 = 0 ∧
    create_moment_tensor 1 2 3 4 "fault" 0.3 =
      Real.cos (deg2rad 4) • fault_projected_moment_tensor "shear" 3 0.25 +
        Real.sin (deg2rad 4) •
          fault_projected_moment_tensor "opening" 0 0.25 :=
  unrecognized_inputs_fall_back "tensile" "fault" 1 2 3 4 10 0.3
    (by decide) (by decide) (by decide) (by decide) (by decide) (by decide)
    (by decide)

/-- C9: for slip types `shear` and `explosion` the result of
`fault_projected_moment_tensor` does not depend on `poissons_ratio`:
two calls differing only in their (valid, in `(0, 0.5)`) Poisson ratios
return identical tensors. -/
theorem poissons_ratio_only_affects_opening (slip_type : String)
    (rake nu1 nu2 : ℝ)
    (hslip : slip_type = "shear" ∨ slip_type = "explosion")
    (ha : 0 < nu1) (hb : nu1 < 0.5) (hc : 0 < nu2) (hd : nu2 < 0.5) :
    fault_projected_moment_tensor slip_type rake nu1 =
      fault_projected_moment_tensor slip_type rake nu2 := by
  rcases hslip with h | h <;> subst h <;> rfl

/-- Witness for C9 at `slip_type = "shear"`, `rake = 30`,
ratios 0.1 and 0.3. -/
theorem poissons_ratio_only_affects_opening_witness :
    fault_projected_moment_tensor "shear" 30 0.1 =
      fault_projected_moment_tensor "shear" 30 0.3 :=
  poissons_ratio_only_affects_opening "shear" 30 0.1 0.3 (Or.inl rfl)
    (by norm_num) (by norm_num) (by norm_num) (by norm_num)

/-- Helper: the dip rotation matrix is orthogonal. -/
lemma dip_rotation_orth (d : ℝ) :
    (dip_rotation d)ᵀ * dip_rotation d = 1 := by
  have h := Real.sin_sq_add_cos_sq d
  ext i j
  fin_cases i <;> fin_cases j <;>
    simp [dip_rotation, Matrix.mul_apply, Fin.sum_univ_three,
      Matrix.one_apply, Matrix.vecHead, Matrix.vecTail] <;>
    linarith [h]

/-- Helper: the strike rotation matrix is orthogonal. -/
lemma strike_rotation_orth (s : ℝ) :
    (strike_rotation s)ᵀ * strike_rotation s = 1 := by
  have h := Real.sin_sq_add_cos_sq s
  ext i j
  fin_cases i <;> fin_cases j <;>
    simp [strike_rotation, Matrix.mul_apply, Fin.sum_univ_three,
      Matrix.one_apply, Matrix.vecHead, Matrix.vecTail] <;>
    linarith [h]

/-- Helper: a similarity transform by an orthogonal matrix preserves the
trace. -/
lemma trace_conj (R M : Matrix (Fin 3) (Fin 3) ℝ) (h : Rᵀ * R = 1) :
    (R * M * Rᵀ).trace = M.trace := by
  rw [Matrix.trace_mul_comm, ← Matrix.mul_assoc, h, Matrix.one_mul]

/-- C10: the two similarity-transform rotations preserve the trace: the
geographic-frame tensor (`coordinates = "xyz"`) has the same trace as the
blended fault-local tensor returned for any unrecognized `coordinates`
value, for every strike, dip, rake, opening angle and Poisson ratio. -/
theorem create_moment_tensor_trace_preserved
    (strike dip rake opening_angle poissons_ratio : ℝ) (coordinates : String)
    (h4 : coordinates ≠ "xyz") (h5 : coordinates ≠ "XYZ")
    (h6 : coordinates ≠ "ENZ") (h7 : coordinates ≠ "enz") :
    (create_moment_tensor strike dip rake opening_angle "xyz"
        poissons_ratio).trace =
      (create_moment_tensor strike dip rake opening_angle coordinates
        poissons_ratio).trace := by
  rw [create_geographic_aux strike dip rake opening_angle "xyz"
      poissons_ratio (Or.inl rfl),
    create_fallback_aux strike dip rake opening_angle coordinates
      poissons_ratio (by simp [h4, h5, h6, h7]),
    trace_conj _ _ (strike_rotation_orth (deg2rad strike)),
    trace_conj _ _ (dip_rotation_orth (deg2rad dip))]

/-- Witness for C10 at concrete fault parameters and
`coordinates = "fault"`. -/
theorem create_moment_tensor_trace_preserved_witness :
    (create_moment_tensor 10 20 30 40 "xyz" 0.25).trace =
      (create_moment_tensor 10 20 30 40 "fault" 0.25).trace :=
  create_moment_tensor_trace_preserved 10 20 30 40 0.25 "fault"
    (by decide) (by decide) (by decide) (by decide)
